import Mathlib

/-!
Verification of the retriever glue code in
`agent_app_sample_code/utils/agents/vector_search.py` and of the deployment
polling loop in
`rag_app_sample_code/A_POC_app/pdf_uc_volume/03_deploy_poc_to_review_app.py`.

The Python code is shallowly embedded: JSON-like Python values become the
inductive `PyVal`, Python `dict`s become insertion-ordered association lists
with overwrite-in-place assignment (the semantics of CPython dicts), Python
floats become rationals, and code that can raise an exception returns an
`Option`/pair carrying the error.
-/

/-- A JSON-like Python value, as produced by `json` decoding and by the
LLM-authored filter payloads: strings, ints, floats, bools, None, lists and
string-keyed dicts. A dict is an insertion-ordered association list. -/
inductive PyVal where
  | str : String → PyVal
  | int : Int → PyVal
  | float : ℚ → PyVal
  | bool : Bool → PyVal
  | none : PyVal
  | list : List PyVal → PyVal
  | dict : List (String × PyVal) → PyVal

/-- A Python dict with string keys, as an insertion-ordered association list. -/
abbrev PyDict := List (String × PyVal)

/-- CPython dict assignment `d[k] = v`: if `k` is present its value is
overwritten in place (insertion order kept), otherwise `(k, v)` is appended. -/
def dictInsert (d : PyDict) (k : String) (v : PyVal) : PyDict :=
  if d.any (fun p => p.1 == k) then
    d.map (fun p => if p.1 == k then (k, v) else p)
  else
    d ++ [(k, v)]

/-- Python dict lookup `d[k]` as an `Option`: `none` models a `KeyError`. -/
def dictGet? (d : PyDict) (k : String) : Option PyVal :=
  (d.find? (fun p => p.1 == k)).map (fun p => p.2)

/-- Python `del d[k]`: removes the binding for `k`. -/
def dictErase (d : PyDict) (k : String) : PyDict :=
  d.filter (fun p => p.1 != k)

/-- Python `str.upper()` on the operator tokens involved here (ASCII):
uppercases every character. -/
def pyUpper (s : String) : String :=
  ⟨s.data.map Char.toUpper⟩

/-- One element of the LLM-authored filter list: a Python dict
`{"field": ..., "filter": ...}`, embedded as a structure. -/
structure FilterItem where
  field : String
  filter : PyVal

/-- The body of the `for filter_item in filters` loop of `parse_filters`,
acting on the accumulator dict `vs_filters`. Returns `none` when the loop
body raises (`next(iter(value.items()))` on an empty dict raises
`StopIteration`). Mirrors the source: a list value becomes `{"OR": value}`;
a dict value is split into its first `(operator, operand)` pair and
dispatched on the operator, with unrecognised operators silently dropped;
any other value is stored unchanged under the field name. -/
def parse_filters_step (vs_filters : PyDict) (filter_item : FilterItem) :
    Option PyDict :=
  let key := filter_item.field
  let value := filter_item.filter
  match value with
  | .list xs => some (dictInsert vs_filters key (.dict [("OR", .list xs)]))
  | .dict entries =>
    match entries with
    | [] => Option.none
    | (operator, operand) :: _ =>
      if operator = "<" ∨ operator = "<=" ∨ operator = ">" ∨ operator = ">=" then
        some (dictInsert vs_filters (key ++ " " ++ operator) operand)
      else if pyUpper operator = "LIKE" then
        some (dictInsert vs_filters (key ++ " LIKE") operand)
      else if pyUpper operator = "NOT" then
        some (dictInsert vs_filters (key ++ " !=") operand)
      else
        some vs_filters
  | v => some (dictInsert vs_filters key v)

/-- The `for` loop of `parse_filters`, threading the accumulator. -/
def parse_filters_go (vs_filters : PyDict) : List FilterItem → Option PyDict
  | [] => some vs_filters
  | filter_item :: rest =>
    match parse_filters_step vs_filters filter_item with
    | Option.none => Option.none
    | some vs' => parse_filters_go vs' rest

/-- Configuration of the retriever response schema
(`VectorSearchSchema`). `_primary_key` is `Option String`; `none` models
the Python `None` default. -/
structure VectorSearchSchema where
  _primary_key : Option String
  chunk_text : String
  document_uri : String
  additional_metadata_columns : List String

/-- The fields of `VectorSearchRetrieverTool` that the verified methods
read or write. `doc_similarity_threshold` is a Python float, embedded as a
rational. -/
structure VectorSearchRetrieverTool where
  vector_search_index : String
  filterable_columns : List String
  vector_search_schema : VectorSearchSchema
  doc_similarity_threshold : ℚ

/-- Method `parse_filters` of `VectorSearchRetrieverTool`: its body never
reads any attribute of `self`, so the embedding takes `self` and ignores it,
exactly as the source does. `none` models the only exception the body can
raise (`StopIteration` from `next(iter({}.items()))` on an empty dict
value). -/
def parse_filters (self : VectorSearchRetrieverTool)
    (filters : List FilterItem) : Option PyDict :=
  parse_filters_go [] filters

/-- State-passing embedding of a call `self.parse_filters(filters)`. The
method body contains no assignment through `self` and no mutation of the
`filters` list (its only writes are to the local `vs_filters`), so the
post-call states of the receiver and of the argument list equal the
pre-call states. -/
def parse_filters_run (self : VectorSearchRetrieverTool)
    (filters : List FilterItem) :
    (VectorSearchRetrieverTool × List FilterItem) × Option PyDict :=
  ((self, filters), parse_filters self filters)

/-- The `for` loop of `parse_filters`, instrumented with a counter of
executed loop iterations. -/
def parse_filters_counted_go (vs_filters : PyDict) (n : ℕ) :
    List FilterItem → Option PyDict × ℕ
  | [] => (some vs_filters, n)
  | filter_item :: rest =>
    match parse_filters_step vs_filters filter_item with
    | Option.none => (Option.none, n + 1)
    | some vs' => parse_filters_counted_go vs' (n + 1) rest

/-- `parse_filters` with an iteration counter. -/
def parse_filters_counted (self : VectorSearchRetrieverTool)
    (filters : List FilterItem) : Option PyDict × ℕ :=
  parse_filters_counted_go [] 0 filters

/-- Spec-side description (claim C1's words) of the entry a single filter
item contributes: a list value `v` yields `f -> {"OR": v}`; a single-entry
dict `{op: x}` yields `"f op" -> x` for comparison operators, `"f LIKE" -> x`
when `op` is `LIKE` case-insensitively, `"f !=" -> x` when `op` is `NOT`
case-insensitively; any other (scalar) value `v` yields `f -> v`. Shapes the
claim does not cover contribute nothing. -/
def c1Contribution (item : FilterItem) : Option (String × PyVal) :=
  match item.filter with
  | .list xs => some (item.field, .dict [("OR", .list xs)])
  | .dict entries =>
    match entries with
    | [(op, x)] =>
      if op = "<" ∨ op = "<=" ∨ op = ">" ∨ op = ">=" then
        some (item.field ++ " " ++ op, x)
      else if pyUpper op = "LIKE" then
        some (item.field ++ " LIKE", x)
      else if pyUpper op = "NOT" then
        some (item.field ++ " !=", x)
      else
        Option.none
    | _ => Option.none
  | v => some (item.field, v)

/-- Spec-side description (claim C1's words) of the whole result: a dict
built in a single pass where each item contributes its entry. -/
def c1Build (filters : List FilterItem) : PyDict :=
  filters.foldl
    (fun d item =>
      match c1Contribution item with
      | some (k, v) => dictInsert d k v
      | Option.none => d)
    []

/-- The shape of filter items claim C1 quantifies over: the value is a list,
a single-entry dict whose operator is one of the recognised tokens, or a
non-list non-dict (scalar) value. -/
def c1Shape (item : FilterItem) : Bool :=
  match item.filter with
  | .dict entries =>
    match entries with
    | [(op, _)] =>
      op = "<" || op = "<=" || op = ">" || op = ">=" ||
        pyUpper op = "LIKE" || pyUpper op = "NOT"
    | _ => false
  | _ => true

theorem parse_filters_step_eq_c1 (vs : PyDict) (item : FilterItem)
    (h : c1Shape item = true) :
    parse_filters_step vs item =
      some (match c1Contribution item with
        | some (k, v) => dictInsert vs k v
        | Option.none => vs) := by
  unfold c1Shape at h
  unfold parse_filters_step c1Contribution
  match hval : item.filter with
  | .list xs => rfl
  | .dict entries =>
    rw [hval] at h
    match entries with
    | [] => simp at h
    | [(op, x)] =>
      dsimp only
      split_ifs <;> rfl
    | (p :: q :: rest) => simp at h
  | .str s => rfl
  | .int n => rfl
  | .float q => rfl
  | .bool b => rfl
  | .none => rfl

theorem parse_filters_go_eq_c1 (filters : List FilterItem) :
    ∀ vs : PyDict, (∀ item ∈ filters, c1Shape item = true) →
      parse_filters_go vs filters =
        some (filters.foldl
          (fun d item =>
            match c1Contribution item with
            | some (k, v) => dictInsert d k v
            | Option.none => d)
          vs) := by
  induction filters with
  | nil => intro vs _; rfl
  | cons item rest ih =>
    intro vs hshape
    have hitem : c1Shape item = true := hshape item (List.mem_cons_self _ _)
    have hrest : ∀ i ∈ rest, c1Shape i = true := fun i hi =>
      hshape i (List.mem_cons_of_mem _ hi)
    rw [List.foldl_cons, parse_filters_go, parse_filters_step_eq_c1 vs item hitem]
    exact ih _ hrest

/-- C1: for every list of filter items each of whose values is a list, a
single-entry dict over a recognised operator, or a scalar, `parse_filters`
returns (without raising) the dict built in a single pass in which each item
contributes exactly the entry described by the spec: a list value `v` gives
`f -> {"OR": v}`, a single-entry dict `{op: x}` with `op` a comparison
operator gives `"f op" -> x`, with `op` equal to `LIKE` case-insensitively
gives `"f LIKE" -> x`, with `op` equal to `NOT` case-insensitively gives
`"f !=" -> x`, and any other scalar value `v` gives `f -> v`. -/
theorem c1_parse_filters_matches_spec (self : VectorSearchRetrieverTool)
    (filters : List FilterItem)
    (hshape : ∀ item ∈ filters, c1Shape item = true) :
    parse_filters self filters = some (c1Build filters) :=
  parse_filters_go_eq_c1 filters [] hshape

/-- A sample retriever tool configuration used by concrete witnesses. -/
def sampleTool : VectorSearchRetrieverTool :=
  { vector_search_index := "catalog.schema.index"
    filterable_columns := ["year", "title", "tags"]
    vector_search_schema :=
      { _primary_key := some "chunk_id"
        chunk_text := "chunk_text"
        document_uri := "doc_uri"
        additional_metadata_columns := [] }
    doc_similarity_threshold := mkRat 1 2 }

/-- A concrete LLM-authored filter list exercising every branch of C1. -/
def c1SampleFilters : List FilterItem :=
  [ { field := "tags", filter := .list [.str "a", .str "b"] }
  , { field := "year", filter := .dict [("<", .int 2020)] }
  , { field := "title", filter := .dict [("like", .str "Intro%")] }
  , { field := "year", filter := .dict [("NOT", .int 1999)] }
  , { field := "title", filter := .str "exact" } ]

/-- Witness for C1 at a concrete filter list. -/
theorem c1_parse_filters_matches_spec_witness :
    (∀ item ∈ c1SampleFilters, c1Shape item = true) ∧
      parse_filters sampleTool c1SampleFilters = some (c1Build c1SampleFilters) :=
  ⟨by decide, c1_parse_filters_matches_spec sampleTool c1SampleFilters (by decide)⟩

theorem parse_filters_step_unknown_op (vs : PyDict) (item : FilterItem)
    (op : String) (x : PyVal) (hval : item.filter = .dict [(op, x)])
    (h1 : ¬(op = "<" ∨ op = "<=" ∨ op = ">" ∨ op = ">="))
    (h2 : pyUpper op ≠ "LIKE") (h3 : pyUpper op ≠ "NOT") :
    parse_filters_step vs item = some vs := by
  unfold parse_filters_step
  rw [hval]
  dsimp only
  rw [if_neg h1, if_neg h2, if_neg h3]

theorem parse_filters_go_drop_unknown (pre : List FilterItem)
    (item : FilterItem) (post : List FilterItem)
    (hstep : ∀ vs : PyDict, parse_filters_step vs item = some vs) :
    ∀ vs : PyDict,
      parse_filters_go vs (pre ++ item :: post) =
        parse_filters_go vs (pre ++ post) := by
  induction pre with
  | nil =>
    intro vs
    simp only [List.nil_append, parse_filters_go, hstep vs]
  | cons p pre' ih =>
    intro vs
    simp only [List.cons_append, parse_filters_go]
    cases parse_filters_step vs p with
    | none => rfl
    | some vs' => exact ih vs'

/-- C8: a filter item whose value is a single-entry dict over an operator
that is none of the recognised tokens (`<`, `<=`, `>`, `>=`, and `LIKE`,
`NOT` case-insensitively) is silently omitted by `parse_filters`: no
exception is raised because of it, and the result is exactly the result of
parsing the same list with that item removed, so no entry derives from
it. -/
theorem c8_unknown_operator_silently_omitted
    (self : VectorSearchRetrieverTool) (pre post : List FilterItem)
    (item : FilterItem) (op : String) (x : PyVal)
    (hval : item.filter = .dict [(op, x)])
    (h1 : ¬(op = "<" ∨ op = "<=" ∨ op = ">" ∨ op = ">="))
    (h2 : pyUpper op ≠ "LIKE") (h3 : pyUpper op ≠ "NOT") :
    parse_filters self (pre ++ item :: post) =
      parse_filters self (pre ++ post) :=
  parse_filters_go_drop_unknown pre item post
    (fun vs => parse_filters_step_unknown_op vs item op x hval h1 h2 h3) []

/-- A filter item with an unrecognised operator, for the C8 witness. -/
def c8BadItem : FilterItem :=
  { field := "year", filter := .dict [("BETWEEN", .int 2000)] }

/-- Witness for C8 at a concrete filter list containing an item with the
unrecognised operator `BETWEEN`. -/
theorem c8_unknown_operator_silently_omitted_witness :
    c8BadItem.filter = .dict [("BETWEEN", .int 2000)] ∧
      ¬("BETWEEN" = "<" ∨ "BETWEEN" = "<=" ∨ "BETWEEN" = ">" ∨
        "BETWEEN" = ">=") ∧
      pyUpper "BETWEEN" ≠ "LIKE" ∧ pyUpper "BETWEEN" ≠ "NOT" ∧
      parse_filters sampleTool
          ([{ field := "title", filter := .str "a" }] ++ c8BadItem ::
            [{ field := "year", filter := .int 2024 }]) =
        parse_filters sampleTool
          ([{ field := "title", filter := .str "a" }] ++
            [{ field := "year", filter := .int 2024 }]) :=
  ⟨rfl, by decide, by decide, by decide,
    c8_unknown_operator_silently_omitted sampleTool
      [{ field := "title", filter := .str "a" }]
      [{ field := "year", filter := .int 2024 }]
      c8BadItem "BETWEEN" (.int 2000) rfl (by decide) (by decide) (by decide)⟩

/-- C6: `parse_filters` is pure and stateless. Two calls on equal filter
lists return equal results, whatever the receiver object of either call is
(the body reads no attribute of `self`); and in the state-passing embedding
of a call, both the receiver and the argument list after the call equal
their values before the call (the body performs no mutation of either). -/
theorem c6_parse_filters_pure_stateless
    (self other : VectorSearchRetrieverTool)
    (filters filters' : List FilterItem) (h : filters = filters') :
    parse_filters self filters = parse_filters other filters' ∧
      (parse_filters_run self filters).1.1 = self ∧
      (parse_filters_run self filters).1.2 = filters := by
  subst h
  exact ⟨rfl, rfl, rfl⟩

/-- A second, different receiver configuration for the C6 witness. -/
def otherTool : VectorSearchRetrieverTool :=
  { vector_search_index := "other.schema.index"
    filterable_columns := []
    vector_search_schema :=
      { _primary_key := Option.none
        chunk_text := "body"
        document_uri := "url"
        additional_metadata_columns := ["extra"] }
    doc_similarity_threshold := mkRat 9 10 }

/-- Witness for C6: two runs on the same concrete filter list from two
different receiver states. -/
theorem c6_parse_filters_pure_stateless_witness :
    c1SampleFilters = c1SampleFilters ∧
      (parse_filters sampleTool c1SampleFilters =
          parse_filters otherTool c1SampleFilters ∧
        (parse_filters_run sampleTool c1SampleFilters).1.1 = sampleTool ∧
        (parse_filters_run sampleTool c1SampleFilters).1.2 = c1SampleFilters) :=
  ⟨rfl, c6_parse_filters_pure_stateless sampleTool otherTool
    c1SampleFilters c1SampleFilters rfl⟩

/-- One entry of `vs_results["manifest"]["columns"]`: a column object whose
`"name"` member is the only one the code reads. -/
structure ColumnInfo where
  name : String

/-- `vs_results["manifest"]`. -/
structure VSManifest where
  columns : List ColumnInfo

/-- `vs_results["result"]`: the reported row count and the row array. Each
row is a list of values whose last element is the similarity score. -/
structure VSResult where
  row_count : Int
  data_array : List (List PyVal)

/-- The response payload passed to `convert_vector_search_to_documents`. -/
structure VSResults where
  manifest : VSManifest
  result : VSResult

/-- The numeric value of a Python object for a `>=` comparison against a
float; `none` models the `TypeError` Python raises when the object is not a
number (Python `bool` is numeric: `True == 1`, `False == 0`). -/
def asRat : PyVal → Option ℚ
  | .int n => some (n : ℚ)
  | .float q => some q
  | .bool b => some (if b then 1 else 0)
  | _ => Option.none

/-- An `mlflow.entities.Document` as built by the converter: the chunk text
as `page_content`, the remaining fields as `metadata`, the primary key as
`id`. -/
structure Document where
  page_content : PyVal
  metadata : PyDict
  id : PyVal

/-- The loop `for i, field in enumerate(item[0:-1]):
metadata[column_names[i]["name"]] = field`. Indexing `column_names[i]`
raises `IndexError` (`none`) when the row has more data fields than the
manifest has columns. -/
def buildMeta (metadata : PyDict) :
    List ColumnInfo → List PyVal → Option PyDict
  | _, [] => some metadata
  | [], _ :: _ => Option.none
  | c :: cs, f :: fs => buildMeta (dictInsert metadata c.name f) cs fs

/-- The body of the `for item in vs_results["result"]["data_array"]` loop of
`convert_vector_search_to_documents`, for one row. Outer `none` models an
exception (`IndexError` on `item[-1]` for an empty row, `TypeError` on a
non-numeric score, `IndexError` on `column_names[i]`, `KeyError` on the
chunk-text or primary-key lookup, `ValueError` from the `primary_key`
property when `_primary_key` is `None`); `some none` is a row filtered out
by the threshold; `some (some doc)` is a produced document. -/
def processRow (schema : VectorSearchSchema) (column_names : List ColumnInfo)
    (vector_search_threshold : ℚ) (item : List PyVal) :
    Option (Option Document) :=
  match item.getLast? with
  | Option.none => Option.none
  | some scoreVal =>
    match asRat scoreVal with
    | Option.none => Option.none
    | some score =>
      if vector_search_threshold ≤ score then
        match buildMeta (dictInsert [] "similarity_score" scoreVal)
            column_names item.dropLast with
        | Option.none => Option.none
        | some metadata =>
          match dictGet? metadata schema.chunk_text with
          | Option.none => Option.none
          | some page_content =>
            let metadata1 := dictErase metadata schema.chunk_text
            match schema._primary_key with
            | Option.none => Option.none
            | some pk =>
              match dictGet? metadata1 pk with
              | Option.none => Option.none
              | some idv =>
                some (some
                  { page_content := page_content
                    metadata := dictErase metadata1 pk
                    id := idv })
      else
        some Option.none

/-- The row loop of `convert_vector_search_to_documents`, appending produced
documents in row order. -/
def convertRows (schema : VectorSearchSchema) (column_names : List ColumnInfo)
    (vector_search_threshold : ℚ) : List (List PyVal) → Option (List Document)
  | [] => some []
  | item :: rest =>
    match processRow schema column_names vector_search_threshold item with
    | Option.none => Option.none
    | some Option.none => convertRows schema column_names vector_search_threshold rest
    | some (some doc) =>
      match convertRows schema column_names vector_search_threshold rest with
      | Option.none => Option.none
      | some docs => some (doc :: docs)

/-- Method `convert_vector_search_to_documents`: collects the manifest's
column objects, then, only when the reported `row_count` is positive, folds
the row loop over the row array; `none` models an uncaught exception. -/
def convert_vector_search_to_documents (self : VectorSearchRetrieverTool)
    (vs_results : VSResults) (vector_search_threshold : ℚ) :
    Option (List Document) :=
  let column_names := vs_results.manifest.columns
  if vs_results.result.row_count > 0 then
    convertRows self.vector_search_schema column_names vector_search_threshold
      vs_results.result.data_array
  else
    some []

/-- The row loop with a counter of executed row iterations. -/
def convertRows_counted (schema : VectorSearchSchema)
    (column_names : List ColumnInfo) (vector_search_threshold : ℚ) (n : ℕ) :
    List (List PyVal) → Option (List Document) × ℕ
  | [] => (some [], n)
  | item :: rest =>
    match processRow schema column_names vector_search_threshold item with
    | Option.none => (Option.none, n + 1)
    | some Option.none =>
      convertRows_counted schema column_names vector_search_threshold (n + 1) rest
    | some (some doc) =>
      match convertRows_counted schema column_names vector_search_threshold
          (n + 1) rest with
      | (Option.none, m) => (Option.none, m)
      | (some docs, m) => (some (doc :: docs), m)

/-- `convert_vector_search_to_documents` with an iteration counter. -/
def convert_vector_search_to_documents_counted
    (self : VectorSearchRetrieverTool) (vs_results : VSResults)
    (vector_search_threshold : ℚ) : Option (List Document) × ℕ :=
  if vs_results.result.row_count > 0 then
    convertRows_counted self.vector_search_schema vs_results.manifest.columns
      vector_search_threshold 0 vs_results.result.data_array
  else
    (some [], 0)

/-- The similarity score of a row: its last element read as a number. -/
def rowScore? (item : List PyVal) : Option ℚ :=
  item.getLast?.bind asRat

/-- A row passes the threshold when its score is a number `≥` it. -/
def rowPasses (vector_search_threshold : ℚ) (item : List PyVal) : Prop :=
  ∃ q, rowScore? item = some q ∧ vector_search_threshold ≤ q

theorem processRow_pass_iff (schema : VectorSearchSchema)
    (column_names : List ColumnInfo) (t : ℚ) (item : List PyVal)
    (h : (processRow schema column_names t item).isSome = true) :
    ((processRow schema column_names t item).bind id).isSome = true ↔
      rowPasses t item := by
  unfold processRow at h ⊢
  cases hlast : item.getLast? with
  | none => rw [hlast] at h; simp at h
  | some scoreVal =>
    rw [hlast] at h
    dsimp only at h ⊢
    cases hrat : asRat scoreVal with
    | none => rw [hrat] at h; simp at h
    | some score =>
      rw [hrat] at h
      dsimp only at h ⊢
      have hscore : rowScore? item = some score := by
        simp [rowScore?, hlast, hrat]
      by_cases hle : t ≤ score
      · rw [if_pos hle] at h ⊢
        constructor
        · intro _; exact ⟨score, hscore, hle⟩
        · intro _
          cases hb : buildMeta (dictInsert [] "similarity_score" scoreVal)
              column_names item.dropLast with
          | none => rw [hb] at h; simp at h
          | some metadata =>
            rw [hb] at h
            dsimp only at h ⊢
            cases hg : dictGet? metadata schema.chunk_text with
            | none => rw [hg] at h; simp at h
            | some page_content =>
              rw [hg] at h
              dsimp only at h ⊢
              cases hpk : schema._primary_key with
              | none => rw [hpk] at h; simp at h
              | some pk =>
                rw [hpk] at h
                dsimp only at h ⊢
                cases hg2 : dictGet? (dictErase metadata schema.chunk_text) pk with
                | none => rw [hg2] at h; simp at h
                | some idv => simp
      · rw [if_neg hle]
        show (Option.none : Option Document).isSome = true ↔ rowPasses t item
        simp only [Option.isSome_none, Bool.false_eq_true, false_iff]
        rintro ⟨q, hq, hq2⟩
        rw [hscore] at hq
        cases hq
        exact hle hq2

theorem convertRows_eq_filterMap (schema : VectorSearchSchema)
    (column_names : List ColumnInfo) (t : ℚ) :
    ∀ rows : List (List PyVal),
      (∀ r ∈ rows, (processRow schema column_names t r).isSome = true) →
      convertRows schema column_names t rows =
        some (rows.filterMap
          (fun r => (processRow schema column_names t r).bind id)) := by
  intro rows
  induction rows with
  | nil => intro _; rfl
  | cons r rest ih =>
    intro hwf
    have hr := hwf r (List.mem_cons_self _ _)
    have hrest := fun i hi => hwf i (List.mem_cons_of_mem _ hi)
    rw [convertRows, List.filterMap_cons]
    cases hp : processRow schema column_names t r with
    | none => rw [hp] at hr; simp at hr
    | some od =>
      cases od with
      | none => simpa using ih hrest
      | some doc => rw [ih hrest]; simp

/-- C2: on a payload whose reported `row_count` equals the number of rows in
the row array (and whose per-row processing raises no exception),
`convert_vector_search_to_documents` returns the list containing exactly one
`Document` for each row whose last element is a score `≥` the threshold, in
row-array order — the result is the in-order projection of the row array in
which a row contributes a document exactly when it passes the threshold —
and when the reported `row_count` is `0` the result is the empty list. -/
theorem c2_convert_keeps_rows_at_or_above_threshold
    (self : VectorSearchRetrieverTool) (vs_results : VSResults) (t : ℚ)
    (hwf : ∀ r ∈ vs_results.result.data_array,
      (processRow self.vector_search_schema vs_results.manifest.columns t
        r).isSome = true) :
    (vs_results.result.row_count = (vs_results.result.data_array.length : Int) →
      convert_vector_search_to_documents self vs_results t =
        some (vs_results.result.data_array.filterMap
          (fun r => (processRow self.vector_search_schema
            vs_results.manifest.columns t r).bind id)) ∧
      ∀ r ∈ vs_results.result.data_array,
        (((processRow self.vector_search_schema vs_results.manifest.columns t
          r).bind id).isSome = true ↔ rowPasses t r)) ∧
    (vs_results.result.row_count = 0 →
      convert_vector_search_to_documents self vs_results t = some []) := by
  constructor
  · intro hcount
    constructor
    · unfold convert_vector_search_to_documents
      by_cases hpos : vs_results.result.row_count > 0
      · rw [if_pos hpos]
        exact convertRows_eq_filterMap _ _ _ _ hwf
      · rw [if_neg hpos]
        have hlen : vs_results.result.data_array.length = 0 := by omega
        rw [List.length_eq_zero] at hlen
        rw [hlen]
        simp
    · intro r hr
      exact processRow_pass_iff _ _ _ _ (hwf r hr)
  · intro hzero
    unfold convert_vector_search_to_documents
    rw [if_neg (by rw [hzero]; simp)]

/-- A concrete response payload for the C2 witness: two rows, one at score
`9/10` (above the `1/2` threshold) and one at `1/10` (below it). -/
def sampleResults : VSResults :=
  { manifest :=
      { columns := [⟨"chunk_id"⟩, ⟨"chunk_text"⟩, ⟨"doc_uri"⟩, ⟨"score"⟩] }
    result :=
      { row_count := 2
        data_array :=
          [ [.int 1, .str "hello world", .str "u1", .float (mkRat 9 10)]
          , [.int 2, .str "goodbye", .str "u2", .float (mkRat 1 10)] ] } }

/-- Witness for C2 at a concrete payload. -/
theorem c2_convert_keeps_rows_at_or_above_threshold_witness :
    (∀ r ∈ sampleResults.result.data_array,
      (processRow sampleTool.vector_search_schema
        sampleResults.manifest.columns (mkRat 1 2) r).isSome = true) ∧
      ((sampleResults.result.row_count =
          (sampleResults.result.data_array.length : Int) →
        convert_vector_search_to_documents sampleTool sampleResults (mkRat 1 2) =
          some (sampleResults.result.data_array.filterMap
            (fun r => (processRow sampleTool.vector_search_schema
              sampleResults.manifest.columns (mkRat 1 2) r).bind id)) ∧
        ∀ r ∈ sampleResults.result.data_array,
          (((processRow sampleTool.vector_search_schema
            sampleResults.manifest.columns (mkRat 1 2) r).bind id).isSome = true ↔
            rowPasses (mkRat 1 2) r)) ∧
      (sampleResults.result.row_count = 0 →
        convert_vector_search_to_documents sampleTool sampleResults (mkRat 1 2) =
          some [])) :=
  ⟨by decide,
    c2_convert_keeps_rows_at_or_above_threshold sampleTool sampleResults
      (mkRat 1 2) (by decide)⟩

theorem dictInsert_of_fresh (d : PyDict) (k : String) (v : PyVal)
    (h : ∀ p ∈ d, p.1 ≠ k) : dictInsert d k v = d ++ [(k, v)] := by
  have hany : ¬(d.any (fun p => p.1 == k) = true) := by
    simp only [List.any_eq_true, beq_iff_eq]
    rintro ⟨p, hp, hpk⟩
    exact h p hp hpk
  unfold dictInsert
  rw [if_neg hany]

theorem buildMeta_eq (fields : List PyVal) :
    ∀ (cols : List ColumnInfo) (md : PyDict),
      fields.length ≤ cols.length →
      (∀ p ∈ md, p.1 ∉ (cols.take fields.length).map ColumnInfo.name) →
      ((cols.take fields.length).map ColumnInfo.name).Nodup →
      buildMeta md cols fields =
        some (md ++ ((cols.take fields.length).map ColumnInfo.name).zip fields) := by
  induction fields with
  | nil => intro cols md _ _ _; simp [buildMeta]
  | cons f fs ih =>
    intro cols md hlen hfresh hnd
    cases cols with
    | nil => simp at hlen
    | cons c cs =>
      simp only [List.length_cons, List.take_succ_cons, List.map_cons,
        List.zip_cons_cons] at hfresh hnd ⊢
      rw [buildMeta]
      have hc_not : c.name ∉ (cs.take fs.length).map ColumnInfo.name :=
        (List.nodup_cons.mp hnd).1
      have hfresh' : ∀ p ∈ dictInsert md c.name f,
          p.1 ∉ (cs.take fs.length).map ColumnInfo.name := by
        intro p hp
        rw [dictInsert_of_fresh md c.name f
          (fun p hp => fun he => (hfresh p hp) (by rw [he]; exact List.mem_cons_self _ _))] at hp
        rcases List.mem_append.mp hp with h1 | h1
        · exact fun hm => hfresh p h1 (List.mem_cons_of_mem _ hm)
        · rcases List.mem_singleton.mp h1 with rfl
          exact hc_not
      rw [ih cs (dictInsert md c.name f) (Nat.succ_le_succ_iff.mp hlen) hfresh'
        (List.nodup_cons.mp hnd).2]
      rw [dictInsert_of_fresh md c.name f
        (fun p hp => fun he => (hfresh p hp) (by rw [he]; exact List.mem_cons_self _ _))]
      simp [List.append_assoc]

theorem dictGet?_cons_of_ne (d : PyDict) (k k' : String) (v : PyVal)
    (h : k' ≠ k) : dictGet? ((k', v) :: d) k = dictGet? d k := by
  unfold dictGet?
  rw [List.find?_cons_of_neg _ (by simpa using h)]

theorem dictGet?_cons_self (d : PyDict) (k : String) (v : PyVal) :
    dictGet? ((k, v) :: d) k = some v := by
  unfold dictGet?
  rw [List.find?_cons_of_pos _ (by simp)]
  rfl

theorem dictGet?_zip_eq (names : List String) :
    ∀ (fields : List PyVal) (i : ℕ) (k : String) (v : PyVal),
      names.Nodup → names.get? i = some k → fields.get? i = some v →
      dictGet? (names.zip fields) k = some v := by
  induction names with
  | nil => intro fields i k v _ hk _; simp at hk
  | cons n ns ih =>
    intro fields i k v hnd hk hv
    cases fields with
    | nil => cases i <;> simp at hv
    | cons f fs =>
      cases i with
      | zero =>
        simp only [List.get?] at hk hv
        cases hk; cases hv
        rw [List.zip_cons_cons]
        exact dictGet?_cons_self _ _ _
      | succ j =>
        simp only [List.get?] at hk hv
        have hkmem : k ∈ ns := List.get?_mem hk
        have hne : n ≠ k := fun he => (List.nodup_cons.mp hnd).1 (he ▸ hkmem)
        rw [List.zip_cons_cons, dictGet?_cons_of_ne _ _ _ _ hne]
        exact ih fs j k v (List.nodup_cons.mp hnd).2 hk hv

theorem dictGet?_erase_self (d : PyDict) (k : String) :
    dictGet? (dictErase d k) k = Option.none := by
  induction d with
  | nil => rfl
  | cons p d ih =>
    cases p with
    | mk k' v =>
      unfold dictErase at ih ⊢
      by_cases hpk : k' = k
      · rw [List.filter_cons_of_neg (by simp [hpk])]
        exact ih
      · rw [List.filter_cons_of_pos (by simp [hpk])]
        rw [dictGet?_cons_of_ne _ _ _ _ hpk]
        exact ih

theorem dictGet?_erase_of_ne (d : PyDict) (k k' : String) (h : k ≠ k') :
    dictGet? (dictErase d k') k = dictGet? d k := by
  induction d with
  | nil => rfl
  | cons p d ih =>
    unfold dictErase at ih ⊢
    cases p with
    | mk k₁ v =>
      by_cases h1 : k₁ = k'
      · rw [List.filter_cons_of_neg (by simpa using h1)]
        rw [ih, dictGet?_cons_of_ne _ _ _ _ (h1 ▸ fun he => h he.symm)]
      · rw [List.filter_cons_of_pos (by simpa using h1)]
        by_cases h2 : k₁ = k
        · cases h2
          rw [dictGet?_cons_self, dictGet?_cons_self]
        · rw [dictGet?_cons_of_ne _ _ _ _ h2, dictGet?_cons_of_ne _ _ _ _ h2]
          exact ih

/-- C9: a row that passes the threshold produces a `Document` whose
`page_content` is the row's value in the configured chunk-text column, whose
`id` is the row's value in the configured primary-key column, and whose
`metadata` maps `"similarity_score"` to the row's last element and every
other returned column name to that column's value, while containing neither
the chunk-text column nor the primary-key column. Together with C2
(`convert_vector_search_to_documents` emits exactly the per-row results of
`processRow`), this characterises every document the converter produces. -/
theorem c9_document_content (schema : VectorSearchSchema)
    (cols : List ColumnInfo) (t : ℚ) (fields : List PyVal) (scoreVal : PyVal)
    (q : ℚ) (pk : String)
    (hler : fields.length ≤ cols.length)
    (hnd : ((cols.take fields.length).map ColumnInfo.name).Nodup)
    (hss : "similarity_score" ∉ (cols.take fields.length).map ColumnInfo.name)
    (hchunk : schema.chunk_text ∈ (cols.take fields.length).map ColumnInfo.name)
    (hpk : schema._primary_key = some pk)
    (hpkmem : pk ∈ (cols.take fields.length).map ColumnInfo.name)
    (hne : schema.chunk_text ≠ pk)
    (hscore : asRat scoreVal = some q)
    (hpass : t ≤ q) :
    ∃ doc : Document,
      processRow schema cols t (fields ++ [scoreVal]) = some (some doc) ∧
      dictGet? doc.metadata "similarity_score" = some scoreVal ∧
      dictGet? doc.metadata schema.chunk_text = Option.none ∧
      dictGet? doc.metadata pk = Option.none ∧
      (∀ i v, ((cols.take fields.length).map ColumnInfo.name).get? i =
          some schema.chunk_text →
        fields.get? i = some v → doc.page_content = v) ∧
      (∀ i v, ((cols.take fields.length).map ColumnInfo.name).get? i = some pk →
        fields.get? i = some v → doc.id = v) ∧
      (∀ i k v, ((cols.take fields.length).map ColumnInfo.name).get? i = some k →
        fields.get? i = some v → k ≠ schema.chunk_text → k ≠ pk →
        dictGet? doc.metadata k = some v) := by
  have hlen_names :
      ((cols.take fields.length).map ColumnInfo.name).length = fields.length := by
    rw [List.length_map, List.length_take]
    exact Nat.min_eq_left hler
  have hss_ne_chunk : "similarity_score" ≠ schema.chunk_text :=
    fun he => hss (he ▸ hchunk)
  have hss_ne_pk : "similarity_score" ≠ pk := fun he => hss (he ▸ hpkmem)
  -- the metadata dict right after the enumerate loop
  have hfresh0 : ∀ p ∈ dictInsert [] "similarity_score" scoreVal,
      p.1 ∉ (cols.take fields.length).map ColumnInfo.name := by
    intro p hp
    have hpeq : p = ("similarity_score", scoreVal) := by
      simpa [dictInsert] using hp
    rw [hpeq]
    exact hss
  have hmeta : buildMeta (dictInsert [] "similarity_score" scoreVal) cols fields =
      some (("similarity_score", scoreVal) ::
        ((cols.take fields.length).map ColumnInfo.name).zip fields) := by
    rw [buildMeta_eq fields cols _ hler hfresh0 hnd]
    rfl
  -- the values stored under the chunk-text and primary-key columns
  obtain ⟨ic, hic⟩ := List.mem_iff_get?.mp hchunk
  have hic_lt : ic < fields.length := by
    rw [← hlen_names]
    exact (List.get?_eq_some.mp hic).1
  obtain ⟨vc, hvc⟩ : ∃ v, fields.get? ic = some v :=
    ⟨fields.get ⟨ic, hic_lt⟩, List.get?_eq_get hic_lt⟩
  obtain ⟨ip, hip⟩ := List.mem_iff_get?.mp hpkmem
  have hip_lt : ip < fields.length := by
    rw [← hlen_names]
    exact (List.get?_eq_some.mp hip).1
  obtain ⟨vp, hvp⟩ : ∃ v, fields.get? ip = some v :=
    ⟨fields.get ⟨ip, hip_lt⟩, List.get?_eq_get hip_lt⟩
  have hzip_chunk :
      dictGet? (((cols.take fields.length).map ColumnInfo.name).zip fields)
        schema.chunk_text = some vc :=
    dictGet?_zip_eq _ fields ic schema.chunk_text vc hnd hic hvc
  have hzip_pk :
      dictGet? (((cols.take fields.length).map ColumnInfo.name).zip fields)
        pk = some vp :=
    dictGet?_zip_eq _ fields ip pk vp hnd hip hvp
  have hlookup_chunk :
      dictGet? (("similarity_score", scoreVal) ::
          ((cols.take fields.length).map ColumnInfo.name).zip fields)
        schema.chunk_text = some vc := by
    rw [dictGet?_cons_of_ne _ _ _ _ hss_ne_chunk]
    exact hzip_chunk
  have hlookup_pk :
      dictGet? (dictErase (("similarity_score", scoreVal) ::
          ((cols.take fields.length).map ColumnInfo.name).zip fields)
          schema.chunk_text)
        pk = some vp := by
    rw [dictGet?_erase_of_ne _ _ _ (fun he => hne he.symm)]
    rw [dictGet?_cons_of_ne _ _ _ _ hss_ne_pk]
    exact hzip_pk
  have hrun : processRow schema cols t (fields ++ [scoreVal]) =
      some (some
        { page_content := vc
          metadata := dictErase (dictErase
            (("similarity_score", scoreVal) ::
              ((cols.take fields.length).map ColumnInfo.name).zip fields)
            schema.chunk_text) pk
          id := vp }) := by
    unfold processRow
    rw [List.getLast?_concat]
    dsimp only
    rw [hscore]
    dsimp only
    rw [if_pos hpass, List.dropLast_concat, hmeta]
    dsimp only
    rw [hlookup_chunk]
    dsimp only
    rw [hpk]
    dsimp only
    rw [hlookup_pk]
  refine ⟨_, hrun, ?_, ?_, ?_, ?_, ?_, ?_⟩
  · -- metadata contains the similarity score
    dsimp only
    rw [dictGet?_erase_of_ne _ _ _ hss_ne_pk,
      dictGet?_erase_of_ne _ _ _ hss_ne_chunk]
    exact dictGet?_cons_self _ _ _
  · -- metadata does not contain the chunk-text column
    dsimp only
    rw [dictGet?_erase_of_ne _ _ _ hne]
    exact dictGet?_erase_self _ _
  · -- metadata does not contain the primary-key column
    dsimp only
    exact dictGet?_erase_self _ _
  · -- page_content is the chunk-text column's value
    intro i v hik hiv
    have : dictGet? (((cols.take fields.length).map ColumnInfo.name).zip fields)
        schema.chunk_text = some v :=
      dictGet?_zip_eq _ fields i schema.chunk_text v hnd hik hiv
    have hv : v = vc := Option.some.inj (this.symm.trans hzip_chunk)
    dsimp only
    rw [hv]
  · -- id is the primary-key column's value
    intro i v hik hiv
    have : dictGet? (((cols.take fields.length).map ColumnInfo.name).zip fields)
        pk = some v :=
      dictGet?_zip_eq _ fields i pk v hnd hik hiv
    have hv : v = vp := Option.some.inj (this.symm.trans hzip_pk)
    dsimp only
    rw [hv]
  · -- every other returned column's value is in metadata
    intro i k v hik hiv hkc hkp
    have hkmem : k ∈ (cols.take fields.length).map ColumnInfo.name :=
      List.get?_mem hik
    have hk_ne_ss : "similarity_score" ≠ k := fun he => hss (he ▸ hkmem)
    dsimp only
    rw [dictGet?_erase_of_ne _ _ _ hkp, dictGet?_erase_of_ne _ _ _ hkc,
      dictGet?_cons_of_ne _ _ _ _ hk_ne_ss]
    exact dictGet?_zip_eq _ fields i k v hnd hik hiv

/-- The data fields of the sample row used by the C9 witness. -/
def c9Fields : List PyVal := [.int 1, .str "hello world", .str "u1"]

/-- Witness for C9 at a concrete row of the sample payload. -/
theorem c9_document_content_witness :
    (c9Fields.length ≤ sampleResults.manifest.columns.length ∧
      ((sampleResults.manifest.columns.take c9Fields.length).map
        ColumnInfo.name).Nodup ∧
      "similarity_score" ∉ (sampleResults.manifest.columns.take
        c9Fields.length).map ColumnInfo.name ∧
      sampleTool.vector_search_schema.chunk_text ∈
        (sampleResults.manifest.columns.take c9Fields.length).map
          ColumnInfo.name ∧
      sampleTool.vector_search_schema._primary_key = some "chunk_id" ∧
      "chunk_id" ∈ (sampleResults.manifest.columns.take c9Fields.length).map
        ColumnInfo.name ∧
      sampleTool.vector_search_schema.chunk_text ≠ "chunk_id" ∧
      asRat (.float (mkRat 9 10)) = some (mkRat 9 10) ∧
      mkRat 1 2 ≤ mkRat 9 10) ∧
    (∃ doc : Document,
      processRow sampleTool.vector_search_schema
          sampleResults.manifest.columns (mkRat 1 2)
          (c9Fields ++ [.float (mkRat 9 10)]) = some (some doc) ∧
      dictGet? doc.metadata "similarity_score" = some (.float (mkRat 9 10)) ∧
      dictGet? doc.metadata sampleTool.vector_search_schema.chunk_text =
        Option.none ∧
      dictGet? doc.metadata "chunk_id" = Option.none ∧
      (∀ i v, ((sampleResults.manifest.columns.take c9Fields.length).map
          ColumnInfo.name).get? i =
          some sampleTool.vector_search_schema.chunk_text →
        c9Fields.get? i = some v → doc.page_content = v) ∧
      (∀ i v, ((sampleResults.manifest.columns.take c9Fields.length).map
          ColumnInfo.name).get? i = some "chunk_id" →
        c9Fields.get? i = some v → doc.id = v) ∧
      (∀ i k v, ((sampleResults.manifest.columns.take c9Fields.length).map
          ColumnInfo.name).get? i = some k →
        c9Fields.get? i = some v →
        k ≠ sampleTool.vector_search_schema.chunk_text → k ≠ "chunk_id" →
        dictGet? doc.metadata k = some v)) :=
  ⟨⟨by decide, by decide, by decide, by decide, rfl, by decide, by decide,
      rfl, by decide⟩,
    c9_document_content sampleTool.vector_search_schema
      sampleResults.manifest.columns (mkRat 1 2) c9Fields
      (.float (mkRat 9 10)) (mkRat 9 10) "chunk_id"
      (by decide) (by decide) (by decide) (by decide) rfl (by decide)
      (by decide) rfl (by decide)⟩

theorem parse_filters_counted_go_spec (filters : List FilterItem) :
    ∀ (vs : PyDict) (n : ℕ),
      (parse_filters_counted_go vs n filters).1 = parse_filters_go vs filters ∧
      (parse_filters_counted_go vs n filters).2 ≤ n + filters.length := by
  induction filters with
  | nil => intro vs n; exact ⟨rfl, by simp [parse_filters_counted_go]⟩
  | cons it rest ih =>
    intro vs n
    simp only [parse_filters_counted_go, parse_filters_go, List.length_cons]
    cases parse_filters_step vs it with
    | none => exact ⟨rfl, by dsimp only; omega⟩
    | some vs' =>
      obtain ⟨h1, h2⟩ := ih vs' (n + 1)
      exact ⟨h1, by dsimp only; omega⟩

theorem convertRows_counted_spec (schema : VectorSearchSchema)
    (cols : List ColumnInfo) (t : ℚ) (rows : List (List PyVal)) :
    ∀ n : ℕ,
      (convertRows_counted schema cols t n rows).1 =
        convertRows schema cols t rows ∧
      (convertRows_counted schema cols t n rows).2 ≤ n + rows.length := by
  induction rows with
  | nil => intro n; exact ⟨rfl, by simp [convertRows_counted]⟩
  | cons r rest ih =>
    intro n
    simp only [convertRows_counted, convertRows, List.length_cons]
    cases processRow schema cols t r with
    | none => exact ⟨rfl, by dsimp only; omega⟩
    | some od =>
      cases od with
      | none =>
        obtain ⟨h1, h2⟩ := ih (n + 1)
        exact ⟨h1, by dsimp only; omega⟩
      | some doc =>
        obtain ⟨h1, h2⟩ := ih (n + 1)
        constructor
        · rw [← h1]
          cases hrec : convertRows_counted schema cols t (n + 1) rest with
          | mk o m => cases o <;> simp
        · cases hrec : convertRows_counted schema cols t (n + 1) rest with
          | mk o m =>
            rw [hrec] at h2
            simp only at h2
            cases o <;> (dsimp only; omega)

/-- C7: both transformations are single passes whose executed loop-iteration
count is bounded by the size of their input — the length of the filter list
for `parse_filters` and the number of rows in the response payload's row
array for `convert_vector_search_to_documents` — and both, being structural
recursions over those finite inputs, terminate on every input (the
instrumented variants compute the same results). -/
theorem c7_single_pass_iteration_bounds (self : VectorSearchRetrieverTool)
    (filters : List FilterItem) (vs_results : VSResults) (t : ℚ) :
    (parse_filters_counted self filters).1 = parse_filters self filters ∧
    (parse_filters_counted self filters).2 ≤ filters.length ∧
    (convert_vector_search_to_documents_counted self vs_results t).1 =
      convert_vector_search_to_documents self vs_results t ∧
    (convert_vector_search_to_documents_counted self vs_results t).2 ≤
      vs_results.result.data_array.length := by
  obtain ⟨h1, h2⟩ := parse_filters_counted_go_spec filters [] 0
  refine ⟨h1, by simpa using h2, ?_, ?_⟩
  · unfold convert_vector_search_to_documents_counted
      convert_vector_search_to_documents
    by_cases hpos : vs_results.result.row_count > 0
    · rw [if_pos hpos, if_pos hpos]
      exact (convertRows_counted_spec _ _ _ _ 0).1
    · rw [if_neg hpos, if_neg hpos]
  · unfold convert_vector_search_to_documents_counted
    by_cases hpos : vs_results.result.row_count > 0
    · rw [if_pos hpos]
      simpa using (convertRows_counted_spec self.vector_search_schema
        vs_results.manifest.columns t vs_results.result.data_array 0).2
    · rw [if_neg hpos]
      exact Nat.zero_le _

/-- Ordered insertion of a string (ascending), used to model Python
`sorted` over the table's column set in the error message. -/
def insertSorted (x : String) : List String → List String
  | [] => [x]
  | y :: ys => if x < y ∨ x = y then x :: y :: ys else y :: insertSorted x ys

/-- Python `sorted(table_columns)`. -/
def sortStrings (l : List String) : List String := l.foldr insertSorted []

/-- The `ValueError` message raised by `_validate_columns_exist` — the
f-string of the source, with the available columns sorted and joined by
a comma. -/
def colErrMsg (col context source_table : String)
    (table_columns : List String) : String :=
  "Column \x27" ++ col ++ "\x27 specified in " ++ context ++
    " not found in source table " ++ source_table ++
    ". Available columns: " ++
    String.intercalate ", " (sortStrings table_columns)

/-- Method `_validate_columns_exist`: iterates `columns` in order and
raises (`some` message) at the first column missing from the source table's
column set; `none` models a return with no exception. `table_columns` is
the Python set of available columns, modelled as the list of its
elements. -/
def _validate_columns_exist (columns : List String) (source_table : String)
    (table_columns : List String) (context : String) : Option String :=
  match columns with
  | [] => Option.none
  | col :: rest =>
    if col ∈ table_columns then
      _validate_columns_exist rest source_table table_columns context
    else
      some (colErrMsg col context source_table table_columns)

/-- C3: `_validate_columns_exist` raises exactly at the first listed column
(in list order) absent from the table's column set — the raised message
being the source's f-string naming that column, the context, the source
table and the sorted available columns — and raises nothing when every
listed column is present (`find?` returns `none` exactly then). -/
theorem c3_validate_columns_raises_on_first_missing (columns : List String)
    (source_table : String) (table_columns : List String) (context : String) :
    _validate_columns_exist columns source_table table_columns context =
      (columns.find? (fun c => !(decide (c ∈ table_columns)))).map
        (fun col => colErrMsg col context source_table table_columns) := by
  induction columns with
  | nil => rfl
  | cons col rest ih =>
    rw [_validate_columns_exist]
    by_cases hc : col ∈ table_columns
    · rw [if_pos hc, List.find?_cons_of_neg _ (by simp [hc]), ih]
    · rw [if_neg hc, List.find?_cons_of_pos _ (by simp [hc])]
      rfl

/-- The SDK's `VectorIndexType` enum values relevant to the code. -/
inductive VectorIndexType where
  | DELTA_SYNC
  | DIRECT_ACCESS
deriving DecidableEq

/-- Python `str()` of a `VectorIndexType` member, as interpolated into the
unsupported-index-type error message. -/
def VectorIndexType.toStr : VectorIndexType → String
  | .DELTA_SYNC => "VectorIndexType.DELTA_SYNC"
  | .DIRECT_ACCESS => "VectorIndexType.DIRECT_ACCESS"

/-- The remote state consulted by the validators: whether the index exists,
its type, its source table, that table's column set, and the index
metadata's primary key. -/
structure Env where
  indexExists : Bool
  indexType : VectorIndexType
  sourceTable : String
  tableColumns : List String
  indexPrimaryKey : Option String

/-- Python truthiness of an optional string: `None` and `""` are falsy. -/
def pyFalsy : Option String → Bool
  | Option.none => true
  | some s => s.isEmpty

/-- The `for column, context in columns_to_validate` loop at the end of
`validate_index_and_columns`, each iteration calling
`_validate_columns_exist` on a single column. -/
def validateEach (pairs : List (String × String)) (source_table : String)
    (table_columns : List String) : Option String :=
  match pairs with
  | [] => Option.none
  | (column, context) :: rest =>
    match _validate_columns_exist [column] source_table table_columns context with
    | some e => some e
    | Option.none => validateEach rest source_table table_columns

/-- Model validator `validate_index_and_columns` as a state transformer:
returns the configuration as left after the call (the source mutates
`self.vector_search_schema._primary_key` in place partway through) together
with the raised error message, if any. Mirrors the source order: index
existence check, index-type check (from `_get_index_and_table_info`),
filterable-column validation, primary-key assignment from the index
metadata when the configured key is falsy, then per-column validation of
`chunk_text`, `document_uri` and the additional metadata columns. -/
def validate_index_and_columns (env : Env)
    (self : VectorSearchRetrieverTool) :
    VectorSearchRetrieverTool × Option String :=
  if ¬ env.indexExists then
    (self, some ("Vector search index " ++ self.vector_search_index ++
      " does not exist."))
  else if env.indexType ≠ VectorIndexType.DELTA_SYNC then
    (self, some ("Unsupported index type: " ++ env.indexType.toStr ++
      ". Only DELTA_SYNC is supported."))
  else
    match _validate_columns_exist self.filterable_columns env.sourceTable
        env.tableColumns "filterable_columns" with
    | some e => (self, some e)
    | Option.none =>
      match
        (if pyFalsy self.vector_search_schema._primary_key then
          if pyFalsy env.indexPrimaryKey then
            Sum.inl ("Could not find primary key in index " ++
              self.vector_search_index)
          else
            Sum.inr { self with
              vector_search_schema :=
                { self.vector_search_schema with
                    _primary_key := env.indexPrimaryKey } }
        else Sum.inr self) with
      | Sum.inl e => (self, some e)
      | Sum.inr self1 =>
        match validateEach
            ([(self1.vector_search_schema.chunk_text, "chunk_text"),
              (self1.vector_search_schema.document_uri, "document_uri")] ++
              self1.vector_search_schema.additional_metadata_columns.map
                (fun f => (f, "additional_metadata_columns")))
            env.sourceTable env.tableColumns with
        | some e => (self1, some e)
        | Option.none => (self1, Option.none)

/-- C5 (amended): `validate_index_and_columns` leaves the configuration
unchanged whenever it raises before the primary-key assignment — missing
index, unsupported index type, a failed filterable-column check, or an
index without a primary key — but once the early checks pass and the
configured primary key is falsy, it assigns the index metadata's primary
key into the schema, and that assignment persists even when one of the
later column-existence checks (chunk_text, document_uri, additional
metadata columns) then raises. -/
theorem c5_no_rollback_only_before_pk_assignment (env : Env)
    (self : VectorSearchRetrieverTool) :
    (env.indexExists = false →
      (validate_index_and_columns env self).1 = self) ∧
    (env.indexType ≠ VectorIndexType.DELTA_SYNC →
      (validate_index_and_columns env self).1 = self) ∧
    ((∃ e, _validate_columns_exist self.filterable_columns env.sourceTable
        env.tableColumns "filterable_columns" = some e) →
      (validate_index_and_columns env self).1 = self) ∧
    (pyFalsy self.vector_search_schema._primary_key = true →
      pyFalsy env.indexPrimaryKey = true →
      (validate_index_and_columns env self).1 = self) ∧
    (env.indexExists = true →
      env.indexType = VectorIndexType.DELTA_SYNC →
      _validate_columns_exist self.filterable_columns env.sourceTable
        env.tableColumns "filterable_columns" = Option.none →
      pyFalsy self.vector_search_schema._primary_key = true →
      pyFalsy env.indexPrimaryKey = false →
      (validate_index_and_columns env self).1.vector_search_schema._primary_key
        = env.indexPrimaryKey) := by
  unfold validate_index_and_columns
  refine ⟨?_, ?_, ?_, ?_, ?_⟩
  · intro hne
    rw [if_pos (by rw [hne]; simp)]
  · intro hty
    by_cases hex : env.indexExists
    · rw [if_neg (by simpa using hex), if_pos hty]
    · rw [if_pos (by simpa using hex)]
  · rintro ⟨e, he⟩
    by_cases hex : env.indexExists
    · rw [if_neg (by simpa using hex)]
      by_cases hty : env.indexType ≠ VectorIndexType.DELTA_SYNC
      · rw [if_pos hty]
      · rw [if_neg hty, he]
    · rw [if_pos (by simpa using hex)]
  · intro hfa hfe
    by_cases hex : env.indexExists
    · rw [if_neg (by simpa using hex)]
      by_cases hty : env.indexType ≠ VectorIndexType.DELTA_SYNC
      · rw [if_pos hty]
      · rw [if_neg hty]
        cases hfil : _validate_columns_exist self.filterable_columns
            env.sourceTable env.tableColumns "filterable_columns" with
        | some e => rfl
        | none =>
          dsimp only
          rw [hfa, hfe]
          rfl
    · rw [if_pos (by simpa using hex)]
  · intro hex hty hfil hfa hfe
    rw [if_neg (by simpa using hex), if_neg (by simpa using hty), hfil]
    dsimp only
    rw [hfa, hfe, if_pos rfl, if_neg (by simp)]
    dsimp only
    cases hv : validateEach
        ([({ self with vector_search_schema :=
              { self.vector_search_schema with
                  _primary_key := env.indexPrimaryKey }
            }.vector_search_schema.chunk_text, "chunk_text"),
          ({ self with vector_search_schema :=
              { self.vector_search_schema with
                  _primary_key := env.indexPrimaryKey }
            }.vector_search_schema.document_uri, "document_uri")] ++
          { self with vector_search_schema :=
              { self.vector_search_schema with
                  _primary_key := env.indexPrimaryKey }
            }.vector_search_schema.additional_metadata_columns.map
            (fun f => (f, "additional_metadata_columns")))
        env.sourceTable env.tableColumns with
    | some e => rfl
    | none => rfl

/-- A remote environment whose source table lacks the configured
`chunk_text` column but contains every other configured column, used
against C5. -/
def c5Env : Env :=
  { indexExists := true
    indexType := .DELTA_SYNC
    sourceTable := "catalog.schema.table"
    tableColumns := ["chunk_id", "doc_uri", "year", "title", "tags"]
    indexPrimaryKey := some "chunk_id" }

/-- A configuration with an unset primary key whose `chunk_text` column is
absent from the source table, used against C5. -/
def c5Tool : VectorSearchRetrieverTool :=
  { vector_search_index := "catalog.schema.index"
    filterable_columns := ["year", "title", "tags"]
    vector_search_schema :=
      { _primary_key := Option.none
        chunk_text := "chunk_text"
        document_uri := "doc_uri"
        additional_metadata_columns := [] }
    doc_similarity_threshold := 0 }

/-- Counterexample to C5 as stated: on this input
`validate_index_and_columns` raises (the chunk-text existence check fails),
yet the schema's `_primary_key`, `None` before the call, is left newly set
to the index's `"chunk_id"` in the post-call state — the configuration is
not restored to its pre-call state. -/
theorem c5_counterexample_pk_left_set :
    c5Tool.vector_search_schema._primary_key = Option.none ∧
    ((validate_index_and_columns c5Env c5Tool).2).isSome = true ∧
    (validate_index_and_columns c5Env
      c5Tool).1.vector_search_schema._primary_key = some "chunk_id" :=
  ⟨rfl, by decide, by decide⟩

/-- Witness for the amended C5 at a concrete input reaching the primary-key
assignment. -/
theorem c5_no_rollback_only_before_pk_assignment_witness :
    c5Env.indexExists = true ∧
    c5Env.indexType = VectorIndexType.DELTA_SYNC ∧
    _validate_columns_exist c5Tool.filterable_columns c5Env.sourceTable
      c5Env.tableColumns "filterable_columns" = Option.none ∧
    pyFalsy c5Tool.vector_search_schema._primary_key = true ∧
    pyFalsy c5Env.indexPrimaryKey = false ∧
    (validate_index_and_columns c5Env
      c5Tool).1.vector_search_schema._primary_key = c5Env.indexPrimaryKey :=
  ⟨rfl, rfl, by decide, rfl, rfl,
    (c5_no_rollback_only_before_pk_assignment c5Env c5Tool).2.2.2.2
      rfl rfl (by decide) rfl rfl⟩

/-- Model validator `validate_threshold`: raises (`some` message) exactly
when the configured threshold fails the Python chained comparison
`0 <= self.doc_similarity_threshold <= 1`. -/
def validate_threshold (self : VectorSearchRetrieverTool) : Option String :=
  if ¬(0 ≤ self.doc_similarity_threshold ∧
      self.doc_similarity_threshold ≤ 1) then
    some "doc_similarity_threshold must be between 0 and 1"
  else
    Option.none

/-- The `mode="after"` model validators in definition order, as pydantic
runs them when a `VectorSearchRetrieverTool` is constructed:
`validate_index_and_columns`, then `validate_threshold`. `.ok` carries the
configuration of a successfully constructed object. -/
def run_model_validators (env : Env) (self : VectorSearchRetrieverTool) :
    Except String VectorSearchRetrieverTool :=
  match validate_index_and_columns env self with
  | (_, some e) => Except.error e
  | (self1, Option.none) =>
    match validate_threshold self1 with
    | some e => Except.error e
    | Option.none => Except.ok self1

theorem validate_index_and_columns_preserves_threshold (env : Env)
    (self : VectorSearchRetrieverTool) :
    (validate_index_and_columns env self).1.doc_similarity_threshold =
      self.doc_similarity_threshold := by
  unfold validate_index_and_columns
  by_cases hex : env.indexExists
  · rw [if_neg (by simpa using hex)]
    by_cases hty : env.indexType ≠ VectorIndexType.DELTA_SYNC
    · rw [if_pos hty]
    · rw [if_neg hty]
      cases hfil : _validate_columns_exist self.filterable_columns
          env.sourceTable env.tableColumns "filterable_columns" with
      | some e => rfl
      | none =>
        dsimp only
        by_cases hfa : pyFalsy self.vector_search_schema._primary_key = true
        · rw [if_pos hfa]
          by_cases hfe : pyFalsy env.indexPrimaryKey = true
          · rw [if_pos hfe]
          · rw [if_neg hfe]
            dsimp only
            split
            · rfl
            · rfl
        · rw [if_neg hfa]
          dsimp only
          split
          · rfl
          · rfl
  · rw [if_pos (by simpa using hex)]

/-- C10: `validate_threshold` raises for any configuration whose
`doc_similarity_threshold` lies outside `[0, 1]`, so every configuration
that survives the model validators — every successfully constructed
`VectorSearchRetrieverTool` — satisfies
`0 <= doc_similarity_threshold <= 1`. -/
theorem c10_validated_threshold_in_range (env : Env)
    (self tool : VectorSearchRetrieverTool) :
    (¬(0 ≤ self.doc_similarity_threshold ∧
        self.doc_similarity_threshold ≤ 1) →
      validate_threshold self =
        some "doc_similarity_threshold must be between 0 and 1") ∧
    (run_model_validators env self = Except.ok tool →
      0 ≤ tool.doc_similarity_threshold ∧
        tool.doc_similarity_threshold ≤ 1) := by
  constructor
  · intro h
    unfold validate_threshold
    rw [if_pos h]
  · intro h
    unfold run_model_validators at h
    cases hv : validate_index_and_columns env self with
    | mk self1 err =>
      rw [hv] at h
      cases err with
      | some e => simp at h
      | none =>
        dsimp only at h
        cases ht : validate_threshold self1 with
        | some e => rw [ht] at h; simp at h
        | none =>
          rw [ht] at h
          dsimp only at h
          cases h
          by_cases hin : 0 ≤ tool.doc_similarity_threshold ∧
              tool.doc_similarity_threshold ≤ 1
          · exact hin
          · unfold validate_threshold at ht
            rw [if_pos hin] at ht
            cases ht

/-- An environment under which `sampleTool` passes all model validators. -/
def c10Env : Env :=
  { indexExists := true
    indexType := .DELTA_SYNC
    sourceTable := "catalog.schema.table"
    tableColumns :=
      ["chunk_id", "chunk_text", "doc_uri", "year", "title", "tags"]
    indexPrimaryKey := some "chunk_id" }

/-- A configuration whose threshold lies outside `[0, 1]`. -/
def c10BadTool : VectorSearchRetrieverTool :=
  { sampleTool with doc_similarity_threshold := 2 }

/-- Witness for C10: the out-of-range configuration is rejected by
`validate_threshold`, and a successfully validated configuration has its
threshold inside `[0, 1]`. -/
theorem c10_validated_threshold_in_range_witness :
    (¬(0 ≤ c10BadTool.doc_similarity_threshold ∧
        c10BadTool.doc_similarity_threshold ≤ 1) ∧
      validate_threshold c10BadTool =
        some "doc_similarity_threshold must be between 0 and 1") ∧
    (run_model_validators c10Env sampleTool = Except.ok sampleTool ∧
      0 ≤ sampleTool.doc_similarity_threshold ∧
        sampleTool.doc_similarity_threshold ≤ 1) :=
  ⟨⟨by decide,
      (c10_validated_threshold_in_range c10Env c10BadTool c10BadTool).1
        (by decide)⟩,
    ⟨rfl,
      (c10_validated_threshold_in_range c10Env sampleTool sampleTool).2 rfl⟩⟩

/-- The SDK's `EndpointStateReady` enum. -/
inductive EndpointStateReady where
  | READY
  | NOT_READY
deriving DecidableEq

/-- The SDK's `EndpointStateConfigUpdate` enum values relevant here. -/
inductive EndpointStateConfigUpdate where
  | IN_PROGRESS
  | NOT_UPDATING
  | UPDATE_FAILED
deriving DecidableEq

/-- One status report of the serving endpoint:
`w.serving_endpoints.get(...).state`. -/
structure EndpointState where
  ready : EndpointStateReady
  config_update : EndpointStateConfigUpdate

/-- The deployment wait loop of `03_deploy_poc_to_review_app.py`:

`while w.serving_endpoints.get(e).state.ready == NOT_READY or
w.serving_endpoints.get(e).state.config_update == IN_PROGRESS:
time.sleep(30)`.

`obs k` is the state returned by the `k`-th `get` call; note that one
evaluation of the `or` condition issues one or two separate `get` calls
(short-circuit). `fuel` bounds the number of loop iterations examined;
`i` is the index of the next `get` call and `elapsed` the seconds slept so
far (each iteration sleeps exactly 30, with no backoff). The loop has no
exit value: `some (elapsed, i)` reports an exit after `elapsed` seconds
with the final condition evaluated on the `get` calls `i` and `i + 1`,
while `none` means the loop was still running when `fuel` ran out. -/
def pollLoop (obs : ℕ → EndpointState) : ℕ → ℕ → ℕ → Option (ℕ × ℕ)
  | 0, _, _ => Option.none
  | fuel + 1, i, elapsed =>
    if (obs i).ready = EndpointStateReady.NOT_READY then
      pollLoop obs fuel (i + 1) (elapsed + 30)
    else if (obs (i + 1)).config_update =
        EndpointStateConfigUpdate.IN_PROGRESS then
      pollLoop obs fuel (i + 2) (elapsed + 30)
    else
      some (elapsed, i)

/-- Counterexample to C4 as stated: an endpoint every single status report
of which is in the waiting states — each report has `ready = NOT_READY` or
`config_update = IN_PROGRESS` — yet the loop exits at once, because the
condition fetches the status twice: the first fetch answers
`ready = READY` (while an update is in progress) and the second fetch
answers `config_update = NOT_UPDATING` (while not ready). -/
def c4Obs : ℕ → EndpointState := fun k =>
  if k % 2 = 0 then
    { ready := .READY, config_update := .IN_PROGRESS }
  else
    { ready := .NOT_READY, config_update := .NOT_UPDATING }

theorem c4_counterexample_loop_exits_between_states :
    (∀ k, (c4Obs k).ready = EndpointStateReady.NOT_READY ∨
      (c4Obs k).config_update = EndpointStateConfigUpdate.IN_PROGRESS) ∧
    pollLoop c4Obs 1 0 0 = some (0, 0) := by
  constructor
  · intro k
    unfold c4Obs
    by_cases hk : k % 2 = 0
    · rw [if_pos hk]
      exact Or.inr rfl
    · rw [if_neg hk]
      exact Or.inl rfl
  · rfl

/-- C4 (amended): the loop sleeps a fixed 30 seconds per iteration (the
elapsed time on exit is a multiple of 30, with no backoff) and has no
timeout: for an endpoint that always reports `ready = NOT_READY` it never
exits, however much fuel is examined. It exits only when one status fetch
reports `ready ≠ NOT_READY` and the immediately following, separate fetch
reports `config_update ≠ IN_PROGRESS` — two consecutive reports, not
necessarily one state, because the `or` condition calls
`w.serving_endpoints.get` twice. -/
theorem c4_poll_loop_exit_conditions (obs : ℕ → EndpointState)
    (fuel i elapsed : ℕ) :
    (∀ t j, pollLoop obs fuel i elapsed = some (t, j) →
      (obs j).ready ≠ EndpointStateReady.NOT_READY ∧
      (obs (j + 1)).config_update ≠ EndpointStateConfigUpdate.IN_PROGRESS ∧
      elapsed ≤ t ∧ 30 ∣ (t - elapsed)) ∧
    ((∀ k, (obs k).ready = EndpointStateReady.NOT_READY) →
      pollLoop obs fuel i elapsed = Option.none) := by
  induction fuel generalizing i elapsed with
  | zero =>
    constructor
    · intro t j h
      cases h
    · intro _
      rfl
  | succ fuel ih =>
    constructor
    · intro t j h
      rw [pollLoop] at h
      by_cases h1 : (obs i).ready = EndpointStateReady.NOT_READY
      · rw [if_pos h1] at h
        obtain ⟨ha, hb, hc, hd⟩ := (ih (i + 1) (elapsed + 30)).1 t j h
        exact ⟨ha, hb, by omega, by omega⟩
      · rw [if_neg h1] at h
        by_cases h2 : (obs (i + 1)).config_update =
            EndpointStateConfigUpdate.IN_PROGRESS
        · rw [if_pos h2] at h
          obtain ⟨ha, hb, hc, hd⟩ := (ih (i + 2) (elapsed + 30)).1 t j h
          exact ⟨ha, hb, by omega, by omega⟩
        · rw [if_neg h2] at h
          cases h
          exact ⟨h1, h2, Nat.le_refl _, by simp⟩
    · intro hall
      rw [pollLoop, if_pos (hall i)]
      exact (ih (i + 1) (elapsed + 30)).2 hall

/-- An endpoint that never becomes ready, for the C4 witness. -/
def c4StuckObs : ℕ → EndpointState := fun _ =>
  { ready := .NOT_READY, config_update := .IN_PROGRESS }

/-- Witness for the amended C4: a loop run that exits satisfies the exit
characterisation, and the never-ready endpoint never lets the loop exit. -/
theorem c4_poll_loop_exit_conditions_witness :
    ((c4Obs 0).ready ≠ EndpointStateReady.NOT_READY ∧
      (c4Obs 1).config_update ≠ EndpointStateConfigUpdate.IN_PROGRESS ∧
      0 ≤ 0 ∧ 30 ∣ (0 - 0)) ∧
    ((∀ k, (c4StuckObs k).ready = EndpointStateReady.NOT_READY) ∧
      pollLoop c4StuckObs 5 0 0 = Option.none) :=
  ⟨(c4_poll_loop_exit_conditions c4Obs 1 0 0).1 0 0 rfl,
    ⟨fun _ => rfl,
      (c4_poll_loop_exit_conditions c4StuckObs 5 0 0).2 (fun _ => rfl)⟩⟩
